import Mathlib

/-!
Verification development for the train-db website (a Cloudflare Worker serving
a read-only, searchable, paginated listing of SkyTrain vehicles backed by
Postgres, plus a browser client that re-groups and re-paginates the data by
"marriage" groups).

Server side, the embedding follows `src/api/train-cars.ts` (`getTrainCars`):
parameter handling (`parseInt`, `Math.min`/`Math.max` clamping, the `||`
defaults), the conditional `WHERE` clause of OR-combined `ILIKE` filters, the
`ORDER BY vehicle_id LIMIT/OFFSET` listing query, the parallel count query,
the marriages query, and the catch-all error branch.

Client side, the embedding follows the frontend's `displayData` routine:
the marriage filter over the fetched vehicle rows, the per-group member
rendering, and the Mark V vehicle-id formatting.

Modelling conventions:
* Strings are handled at the `List Char` level; `ILIKE` lowercases both sides
  with `Char.toLower` (Postgres is locale-based, the client uses JS
  `toLowerCase`; for the reasoning here both are per-character lowercasing).
* SQL `NULL` is `Option.none`; an `ILIKE` applied to `NULL` is not `true`,
  matching SQL three-valued logic in an `OR` chain.
* JS `NaN` (from `parseInt` on a string with no leading integer) is
  `Option.none` flowing through the `Math.min`/`Math.max` clamps.
* The model table `train_models` is keyed by `batch_id` (spec §3), so the SQL
  `LEFT JOIN` is modelled as a first-match lookup per vehicle row.
-/

/-! ## Characters and LIKE-pattern matching -/

/-- Postgres `LPAD(s, n, fill)`: pad on the left up to length `n`, or truncate
on the right to exactly `n` if `s` is longer. -/
def lpad (n : Nat) (fill : Char) (s : List Char) : List Char :=
  if n ≤ s.length then s.take n else List.replicate (n - s.length) fill ++ s

/-- JS `String.prototype.padStart(n, fill)`: pad on the left up to length `n`;
never truncates. -/
def padStart (n : Nat) (fill : Char) (s : List Char) : List Char :=
  if n ≤ s.length then s else List.replicate (n - s.length) fill ++ s

/-- SQL `LIKE` pattern matching over characters: `%` matches any sequence,
`_` matches exactly one character, the default escape `\` makes the next
pattern character literal.  A pattern ending in a bare `\` is an error in
Postgres (`LIKE pattern must not end with escape character`); no string
matches it here, which is only reachable when the user's search term ends in
a backslash. -/
def likeMatch : List Char → List Char → Bool
  | [], s => s.isEmpty
  | p :: ps, s =>
    if p = '%' then
      s.tails.any (fun t => likeMatch ps t)
    else if p = '\\' then
      match ps, s with
      | [], _ => false
      | _ :: _, [] => false
      | c :: ps', d :: t => (c == d) && likeMatch ps' t
    else if p = '_' then
      match s with
      | [] => false
      | _ :: t => likeMatch ps t
    else
      match s with
      | [] => false
      | d :: t => (p == d) && likeMatch ps t

/-- Postgres `ILIKE`: case-insensitive `LIKE`, modelled by lowercasing both
the pattern and the subject. -/
def ilike (pat s : List Char) : Bool :=
  likeMatch (pat.map Char.toLower) (s.map Char.toLower)

/-- The pattern the endpoint passes for `$1`: the JS template `` `%${search}%` ``. -/
def sqlPattern (search : String) : List Char :=
  '%' :: (search.toList ++ ['%'])

/-! ## Data model (backing-store schema, spec §3 / §6) -/

/-- A row of the `train_cars` table (the columns `getTrainCars` selects). -/
structure Car where
  vehicle_id : Nat
  name : Option String
  status : String
  delivery_date : Option String
  enter_service_date : Option String
  batch_id : Option Int
  notes : Option String
deriving DecidableEq

/-- A row of the `train_models` table, keyed by `batch_id`. -/
structure TrainModel where
  batch_id : Int
  common_name : Option String
  manufacturer : Option String
  manufacture_location : Option String
  years_manufactured : Option String
  full_name : Option String
deriving DecidableEq

/-- A row of the listing query's result set: `train_cars` left-joined to
`train_models` on `batch_id`. -/
structure JoinedRow where
  vehicle_id : Nat
  name : Option String
  status : String
  delivery_date : Option String
  enter_service_date : Option String
  batch_id : Option Int
  notes : Option String
  model_common_name : Option String
  manufacturer : Option String
  manufacture_location : Option String
  years_manufactured : Option String
  full_name : Option String
deriving DecidableEq

/-- A row of the `car_marriages` table (the columns the marriages query
selects). -/
structure Marriage where
  marriage_id : Nat
  batch_id : Option Int
  cars : List Nat
  marriage_size : Nat
deriving DecidableEq

/-- The backing store visible to `getTrainCars`.  `lastModified` is the
`MAX(last_modified)` scalar over `train_cars` (`NULL` when the table is
empty). -/
structure Db where
  cars : List Car
  models : List TrainModel
  marriages : List Marriage
  lastModified : Option String
deriving DecidableEq

/-- One vehicle row of `LEFT JOIN train_models tm ON tc.batch_id = tm.batch_id`:
model columns are `NULL` when `batch_id` is `NULL` or matches no model row
(`batch_id` is the model table's key, so at most one row matches). -/
def leftJoinRow (models : List TrainModel) (c : Car) : JoinedRow :=
  match c.batch_id.bind (fun b => models.find? (fun m => m.batch_id == b)) with
  | none =>
    { vehicle_id := c.vehicle_id, name := c.name, status := c.status,
      delivery_date := c.delivery_date, enter_service_date := c.enter_service_date,
      batch_id := c.batch_id, notes := c.notes,
      model_common_name := none, manufacturer := none,
      manufacture_location := none, years_manufactured := none, full_name := none }
  | some m =>
    { vehicle_id := c.vehicle_id, name := c.name, status := c.status,
      delivery_date := c.delivery_date, enter_service_date := c.enter_service_date,
      batch_id := c.batch_id, notes := c.notes,
      model_common_name := m.common_name, manufacturer := m.manufacturer,
      manufacture_location := m.manufacture_location,
      years_manufactured := m.years_manufactured, full_name := m.full_name }

/-- The joined result set of the listing query (before filtering/sorting). -/
def leftJoin (cars : List Car) (models : List TrainModel) : List JoinedRow :=
  cars.map (leftJoinRow models)

/-- `col ILIKE $1` for a nullable column: `NULL` never satisfies the filter. -/
def oilike (pat : List Char) : Option String → Bool
  | none => false
  | some s => ilike pat s.toList

/-- The `WHERE` clause of `getTrainCars` (built only when `search` is
non-empty and grouping is off): a single pattern OR-combined over the eight
searchable columns, the vehicle id both as its `LPAD`-ed 3-character text and
as its raw decimal text. -/
def matchesSearch (search : String) (r : JoinedRow) : Bool :=
  let pat := sqlPattern search
  ilike pat (lpad 3 '0' (toString r.vehicle_id).toList) ||
  ilike pat (toString r.vehicle_id).toList ||
  oilike pat r.name ||
  ilike pat r.status.toList ||
  oilike pat r.delivery_date ||
  oilike pat r.enter_service_date ||
  oilike pat r.notes ||
  oilike pat r.model_common_name

/-- The searchable columns of a row, as the spec documents them (used to
state the search-match properties); `NULL` columns are absent. -/
def optCol : Option String → List (List Char)
  | none => []
  | some s => [s.toList]

/-- All present searchable columns of a row, in the order the `WHERE` clause
tests them. -/
def searchableColumns (r : JoinedRow) : List (List Char) :=
  [lpad 3 '0' (toString r.vehicle_id).toList, (toString r.vehicle_id).toList] ++
  optCol r.name ++ [r.status.toList] ++ optCol r.delivery_date ++
  optCol r.enter_service_date ++ optCol r.notes ++ optCol r.model_common_name

/-! ## Sorting (`ORDER BY tc.vehicle_id`, `ORDER BY marriage_id`) -/

/-- Row order of the listing query: ascending `vehicle_id`. -/
def rowLe (a b : JoinedRow) : Prop := a.vehicle_id ≤ b.vehicle_id

instance : DecidableRel rowLe := fun a b => inferInstanceAs (Decidable (a.vehicle_id ≤ b.vehicle_id))

instance : IsTotal JoinedRow rowLe := ⟨fun a b => Nat.le_total a.vehicle_id b.vehicle_id⟩

instance : IsTrans JoinedRow rowLe := ⟨fun _ _ _ => Nat.le_trans⟩

/-- `ORDER BY tc.vehicle_id` (vehicle ids are unique, so any sorted
permutation is the result set order). -/
def sortRows (l : List JoinedRow) : List JoinedRow := List.insertionSort rowLe l

/-- Marriage order of the marriages query: ascending `marriage_id`. -/
def marLe (a b : Marriage) : Prop := a.marriage_id ≤ b.marriage_id

instance : DecidableRel marLe := fun a b => inferInstanceAs (Decidable (a.marriage_id ≤ b.marriage_id))

/-- `ORDER BY marriage_id`. -/
def sortMarriages (l : List Marriage) : List Marriage := List.insertionSort marLe l

/-! ## Request parameters -/

/-- The query parameters `getTrainCars` reads from `URLSearchParams`
(`none` = parameter absent, i.e. `searchParams.get` returned `null`). -/
structure Params where
  search : Option String
  groupByMarriage : Option String
  limit : Option String
  offset : Option String
deriving DecidableEq

/-- JS `x || d` for a nullable string `x`: `null` and the empty string are
falsy, so both fall back to the default. -/
def orDefault (v : Option String) (d : String) : String :=
  match v with
  | none => d
  | some s => if s = "" then d else s

/-- Decimal digit value. -/
def digitVal (c : Char) : Option Nat :=
  if '0' ≤ c ∧ c ≤ '9' then some (c.toNat - '0'.toNat) else none

/-- Hexadecimal digit value. -/
def hexDigitVal (c : Char) : Option Nat :=
  if '0' ≤ c ∧ c ≤ '9' then some (c.toNat - '0'.toNat)
  else if 'a' ≤ c ∧ c ≤ 'f' then some (c.toNat - 'a'.toNat + 10)
  else if 'A' ≤ c ∧ c ≤ 'F' then some (c.toNat - 'A'.toNat + 10)
  else none

/-- Accumulate the value of the longest digit run at the head of the list. -/
def digitsAcc (val : Char → Option Nat) (base : Nat) : List Char → Nat → Nat
  | [], acc => acc
  | c :: cs, acc =>
    match val c with
    | none => acc
    | some d => digitsAcc val base cs (acc * base + d)

/-- Parse the longest leading digit run; `none` if there is no leading digit
(JS `parseInt` returns `NaN` then). -/
def parseUnsigned (val : Char → Option Nat) (base : Nat) (cs : List Char) : Option Nat :=
  match cs with
  | [] => none
  | c :: _ =>
    match val c with
    | none => none
    | some _ => some (digitsAcc val base cs 0)

/-- JS `parseInt(s)` with no radix argument: skip leading whitespace, an
optional sign, auto-detect a `0x`/`0X` hexadecimal literal, then take the
longest leading digit run, ignoring any trailing characters.  `none` models
`NaN`. -/
def jsParseInt (s : String) : Option Int :=
  let cs := s.toList.dropWhile Char.isWhitespace
  let sign : Int := match cs with | '-' :: _ => -1 | _ => 1
  let cs := match cs with | '-' :: t => t | '+' :: t => t | _ => cs
  match cs with
  | '0' :: c :: t =>
    if c = 'x' ∨ c = 'X' then
      (parseUnsigned hexDigitVal 16 t).map (fun n => sign * (n : Int))
    else
      (parseUnsigned digitVal 10 ('0' :: c :: t)).map (fun n => sign * (n : Int))
  | rest => (parseUnsigned digitVal 10 rest).map (fun n => sign * (n : Int))

/-- `Math.min(Math.max(parseInt(searchParams.get("limit") || "50"), 1), 100)`.
JS `Math.max`/`Math.min` return `NaN` when an argument is `NaN`, so `none`
propagates through the clamp. -/
def effLimit (p : Params) : Option Int :=
  (jsParseInt (orDefault p.limit "50")).map (fun n => min (max n 1) 100)

/-- `Math.max(parseInt(searchParams.get("offset") || "0"), 0)`. -/
def effOffset (p : Params) : Option Int :=
  (jsParseInt (orDefault p.offset "0")).map (fun n => max n 0)

/-! ## The endpoint -/

/-- The JSON payload of a successful (200) response.  The `limit`/`offset`
echoes are `Option Int` because a `NaN` value serializes as JSON `null`. -/
structure Payload where
  data : List JoinedRow
  total : Nat
  limit : Option Int
  offset : Option Int
  lastUpdated : Option String
  marriages : Option (List Marriage)
deriving DecidableEq

/-- A response body: the success payload or the error object `{error: msg}`. -/
inductive RespBody where
  | ok : Payload → RespBody
  | err : String → RespBody
deriving DecidableEq

/-- An HTTP response as `getTrainCars` builds it. -/
structure HttpResponse where
  status : Nat
  body : RespBody
deriving DecidableEq

/-- The fixed user-safe message of the catch branch. -/
def genericErrorMessage : String :=
  "An error occurred while fetching train cars data. Please try again later."

/-- `console.error("Database error:", e)`: the server-side log line carries
the full error detail. -/
def serverLogOf (dbError : Option String) : Option String :=
  dbError.map (fun e => "Database error: " ++ e)

/-- `lastUpdatedResult.rows[0]?.last_modified || null`. -/
def lastUpdatedOf (db : Db) : Option String :=
  match db.lastModified with
  | none => none
  | some s => if s = "" then none else some s

/-- The listing query's row set before `ORDER BY`/pagination: the `WHERE`
clause is appended only when grouping is off and `search` is non-empty. -/
def rowsFor (db : Db) (search : String) : List JoinedRow :=
  if search = "" then leftJoin db.cars db.models
  else (leftJoin db.cars db.models).filter (matchesSearch search)

/-- The count query's result: `COUNT(*) FROM train_cars` plain, or with the
same join and `WHERE` clause as the listing query when filtering. -/
def totalFor (db : Db) (search : String) : Nat :=
  if search = "" then db.cars.length
  else ((leftJoin db.cars db.models).filter (matchesSearch search)).length

/-- The `getTrainCars` request handler (`src/api/train-cars.ts`).

`dbError = some e` injects a connection/query failure with detail `e`; the
catch branch logs it (`serverLogOf`) and answers with the fixed generic
message.  On the success path:
* `groupByMarriage` is the exact string compare `=== "true"`;
* grouped mode runs the listing query without `WHERE`/`LIMIT`/`OFFSET` plus
  the marriages query, and the un-parameterized count query;
* ungrouped mode applies the filter, `ORDER BY vehicle_id`, `OFFSET`, `LIMIT`.
  A `NaN` limit or offset is serialized by the driver as the literal string
  `NaN`, which Postgres rejects for `LIMIT`/`OFFSET`; that thrown error lands
  in the same catch branch, hence the 500 arm. -/
def getTrainCars (db : Db) (dbError : Option String) (p : Params) : HttpResponse :=
  match dbError with
  | some _ => ⟨500, RespBody.err genericErrorMessage⟩
  | none =>
    if p.groupByMarriage = some "true" then
      ⟨200, RespBody.ok {
        data := sortRows (leftJoin db.cars db.models),
        total := db.cars.length,
        limit := effLimit p,
        offset := effOffset p,
        lastUpdated := lastUpdatedOf db,
        marriages := some (sortMarriages db.marriages) }⟩
    else
      match effLimit p, effOffset p with
      | some l, some o =>
        ⟨200, RespBody.ok {
          data := ((sortRows (rowsFor db (orDefault p.search ""))).drop o.toNat).take l.toNat,
          total := totalFor db (orDefault p.search ""),
          limit := some l,
          offset := some o,
          lastUpdated := lastUpdatedOf db,
          marriages := none }⟩
      | _, _ => ⟨500, RespBody.err genericErrorMessage⟩

/-- The `data` array of a 200 response. -/
def respData : HttpResponse → Option (List JoinedRow)
  | ⟨_, RespBody.ok pl⟩ => some pl.data
  | _ => none

/-- The `total` field of a 200 response. -/
def respTotal : HttpResponse → Option Nat
  | ⟨_, RespBody.ok pl⟩ => some pl.total
  | _ => none

/-- The `limit` echo of a 200 response. -/
def respLimit : HttpResponse → Option Int
  | ⟨_, RespBody.ok pl⟩ => pl.limit
  | _ => none

/-- The `marriages` field of a 200 response (`none` = JSON `null`). -/
def marriagesOf : HttpResponse → Option (List Marriage)
  | ⟨_, RespBody.ok pl⟩ => pl.marriages
  | _ => none

/-! ## The presentation client (`displayData` in the frontend script) -/

/-- `vehicleMap[carId]`: the client indexes the fetched rows by vehicle id. -/
def findCar (data : List JoinedRow) (c : Nat) : Option JoinedRow :=
  data.find? (fun r => r.vehicle_id == c)

/-- `s.includes(term)` on a raw string. -/
def strIncludes (s : List Char) (term : List Char) : Bool :=
  decide (term <:+: s)

/-- `s.toLowerCase().includes(term)` for a non-null field. -/
def lowerIncludes (s : String) (term : List Char) : Bool :=
  decide (term <:+: s.toList.map Char.toLower)

/-- `field?.toLowerCase().includes(term)` — a null field never matches. -/
def optLowerIncludes : Option String → List Char → Bool
  | none, _ => false
  | some s, term => lowerIncludes s term

/-- The per-car search test of the marriage filter: the id in `padStart`-ed
and raw decimal forms, then the lowercased text fields, against the
lowercased search term. -/
def clientCarMatches (term : List Char) (carId : Nat) (car : JoinedRow) : Bool :=
  strIncludes (padStart 3 '0' (toString carId).toList) term ||
  strIncludes (toString carId).toList term ||
  optLowerIncludes car.name term ||
  lowerIncludes car.status term ||
  optLowerIncludes car.delivery_date term ||
  optLowerIncludes car.enter_service_date term ||
  optLowerIncludes car.notes term ||
  optLowerIncludes car.model_common_name term

/-- The marriage filter predicate: with no search term every marriage is
kept, otherwise a marriage is kept when some member car (found in the
vehicle index) matches. -/
def marriageMatches (data : List JoinedRow) (search : String) (m : Marriage) : Bool :=
  let term := search.toList.map Char.toLower
  if term.isEmpty then true
  else
    m.cars.any (fun c =>
      match findCar data c with
      | none => false
      | some car => clientCarMatches term c car)

/-- `availableMarriages`: the marriages surviving the client-side search
filter, in server order. -/
def availableMarriages (data : List JoinedRow) (marriages : List Marriage) (search : String) : List Marriage :=
  marriages.filter (marriageMatches data search)

/-- Resolve every member id of a marriage; `none` models the `TypeError` the
render loop throws when `vehicleMap[carId]` is `undefined` and destructured. -/
def resolveAll (data : List JoinedRow) : List Nat → Option (List JoinedRow)
  | [] => some []
  | c :: cs =>
    match findCar data c, resolveAll data cs with
    | some r, some rs => some (r :: rs)
    | _, _ => none

/-- The member vehicle rows the client renders for one displayed marriage.

Follows the render loop: an empty `cars` list renders nothing; then
`const firstMatchingCar = carsInMarriage.find(carId => vehicleMap[carId])`
locates the first member present in the index, and `if (!firstMatchingCar)
return` skips the group.  Because `firstMatchingCar` is the car *id*, the JS
falsiness test also fires when that id is the number 0, skipping the whole
group.  Otherwise every member row is rendered. -/
def renderGroup (data : List JoinedRow) (m : Marriage) : Option (List JoinedRow) :=
  if m.cars.isEmpty then some []
  else
    match m.cars.find? (fun c => (findCar data c).isSome) with
    | none => some []
    | some c => if c = 0 then some [] else resolveAll data m.cars

/-- The client's vehicle-id cell formatting: ids in the Mark V band
`[6000, 7000)` are `padStart`-ed to 4 characters and get the tooltip icon,
all other ids are `padStart`-ed to 3 characters with no tooltip.  Returns
the rendered id text and whether the tooltip is attached. -/
def fmtVehicleId (id : Nat) : List Char × Bool :=
  let isMarkV := decide (6000 ≤ id ∧ id < 7000)
  (padStart (if isMarkV then 4 else 3) '0' (toString id).toList, isMarkV)

/-! ## Example database (used by concrete witnesses and counterexamples) -/

/-- Example vehicle with a name and a model. -/
def exampleCar1 : Car :=
  { vehicle_id := 1, name := some "Alpha", status := "In Service",
    delivery_date := some "2001-05-05", enter_service_date := none,
    batch_id := some 1, notes := none }

/-- Example vehicle with null name/model. -/
def exampleCar2 : Car :=
  { vehicle_id := 2, name := none, status := "Retired",
    delivery_date := none, enter_service_date := some "2002-06-06",
    batch_id := none, notes := some "stored" }

/-- Example model row for batch 1. -/
def exampleModel : TrainModel :=
  { batch_id := 1, common_name := some "Mark I", manufacturer := none,
    manufacture_location := none, years_manufactured := none, full_name := none }

/-- Example marriage grouping both vehicles. -/
def exampleMarriage : Marriage :=
  { marriage_id := 1, batch_id := some 1, cars := [1, 2], marriage_size := 2 }

/-- Example backing store. -/
def exampleDb : Db :=
  { cars := [exampleCar1, exampleCar2], models := [exampleModel],
    marriages := [exampleMarriage], lastModified := some "2024-01-01 00:00:00" }

/-- The join of `exampleCar1` with its model. -/
def exampleRow1 : JoinedRow :=
  { vehicle_id := 1, name := some "Alpha", status := "In Service",
    delivery_date := some "2001-05-05", enter_service_date := none,
    batch_id := some 1, notes := none,
    model_common_name := some "Mark I", manufacturer := none,
    manufacture_location := none, years_manufactured := none, full_name := none }

/-- The join of `exampleCar2` (no model). -/
def exampleRow2 : JoinedRow :=
  { vehicle_id := 2, name := none, status := "Retired",
    delivery_date := none, enter_service_date := some "2002-06-06",
    batch_id := none, notes := some "stored",
    model_common_name := none, manufacturer := none,
    manufacture_location := none, years_manufactured := none, full_name := none }

/-! ## Character-level lemmas -/

/-- `Char.ofNat` of a valid codepoint decodes back to it. -/
theorem char_toNat_ofNat_valid (n : Nat) (h : n.isValidChar) :
    (Char.ofNat n).toNat = n := by
  rw [Char.ofNat, dif_pos h]
  rfl

/-- `Char.toLower` either fixes a character or produces a basic latin
lowercase letter (codepoint in `[97, 122]`). -/
theorem toLower_cases (c : Char) :
    Char.toLower c = c ∨ (97 ≤ (Char.toLower c).toNat ∧ (Char.toLower c).toNat ≤ 122) := by
  unfold Char.toLower
  by_cases h : c.toNat ≥ 65 ∧ c.toNat ≤ 90
  · right
    rw [if_pos h]
    have hv : (c.toNat + 32).isValidChar := Or.inl (by omega)
    rw [char_toNat_ofNat_valid _ hv]
    omega
  · left
    rw [if_neg h]

/-- A character that is none of the `LIKE` metacharacters `%`, `_`, `\`. -/
def plainChar (c : Char) : Prop := c ≠ '%' ∧ c ≠ '_' ∧ c ≠ '\\'

instance (c : Char) : Decidable (plainChar c) :=
  inferInstanceAs (Decidable (_ ∧ _ ∧ _))

/-- Lowercasing never produces a `LIKE` metacharacter from a plain one. -/
theorem plainChar_toLower (c : Char) (h : plainChar c) : plainChar (Char.toLower c) := by
  rcases toLower_cases c with hc | ⟨h1, h2⟩
  · rwa [hc]
  · refine ⟨fun he => ?_, fun he => ?_, fun he => ?_⟩
    · have h3 := congrArg Char.toNat he
      rw [show ('%' : Char).toNat = 37 from rfl] at h3
      omega
    · have h3 := congrArg Char.toNat he
      rw [show ('_' : Char).toNat = 95 from rfl] at h3
      omega
    · have h3 := congrArg Char.toNat he
      rw [show ('\\' : Char).toNat = 92 from rfl] at h3
      omega

/-! ## LIKE-pattern lemmas -/

/-- Unfolding `likeMatch` at a leading `%`. -/
theorem likeMatch_pct_any (ps s : List Char) :
    likeMatch ('%' :: ps) s = s.tails.any (fun t => likeMatch ps t) := by
  rw [likeMatch.eq_def]
  rfl

/-- The pattern `%` alone matches everything. -/
theorem likeMatch_one_pct (s : List Char) : likeMatch ['%'] s = true := by
  rw [likeMatch_pct_any]
  exact List.any_eq_true.mpr ⟨[], (List.mem_tails _ _).mpr List.nil_suffix, rfl⟩

/-- A plain pattern followed by `%` matches exactly the strings it is a
prefix of. -/
theorem likeMatch_plain_iff (p : List Char) (hp : ∀ c ∈ p, plainChar c) :
    ∀ s : List Char, likeMatch (p ++ ['%']) s = true ↔ p <+: s := by
  induction p with
  | nil =>
    intro s
    rw [List.nil_append, likeMatch_one_pct]
    exact iff_of_true rfl ⟨s, rfl⟩
  | cons c p ih =>
    intro s
    obtain ⟨hc1, hc2, hc3⟩ := hp c (List.mem_cons_self c p)
    have hrest : ∀ x ∈ p, plainChar x := fun x hx => hp x (List.mem_cons_of_mem _ hx)
    cases s with
    | nil =>
      rw [List.cons_append, likeMatch.eq_def]
      simp [hc1, hc2, hc3]
    | cons d t =>
      rw [List.cons_append, likeMatch.eq_def]
      simp [hc1, hc2, hc3, ih hrest t, List.cons_prefix_cons]

/-- For a plain search term `p`, the pattern `%p%` matches exactly the
strings containing `p`. -/
theorem likeMatch_wrap_iff (p : List Char) (hp : ∀ c ∈ p, plainChar c) (s : List Char) :
    likeMatch ('%' :: (p ++ ['%'])) s = true ↔ p <:+: s := by
  rw [likeMatch_pct_any, List.any_eq_true]
  constructor
  · rintro ⟨t, ht, hm⟩
    exact List.infix_iff_prefix_suffix.mpr
      ⟨t, (likeMatch_plain_iff p hp t).mp hm, (List.mem_tails t s).mp ht⟩
  · intro h
    obtain ⟨t, hpt, hts⟩ := List.infix_iff_prefix_suffix.mp h
    exact ⟨t, (List.mem_tails t s).mpr hts, (likeMatch_plain_iff p hp t).mpr hpt⟩

/-- `ILIKE '%search%'` with a metacharacter-free search term is exactly
case-insensitive containment. -/
theorem ilike_sqlPattern_plain (search : String) (col : List Char)
    (hw : ∀ c ∈ search.toList, plainChar c) :
    ilike (sqlPattern search) col = true ↔
      (search.toList.map Char.toLower) <:+: (col.map Char.toLower) := by
  unfold ilike sqlPattern
  have hmap : ('%' :: (search.toList ++ ['%'])).map Char.toLower =
      '%' :: ((search.toList.map Char.toLower) ++ ['%']) := by
    simp [show Char.toLower '%' = '%' from rfl]
  rw [hmap]
  exact likeMatch_wrap_iff _ (fun c hc => by
    obtain ⟨x, hx, hxc⟩ := List.mem_map.mp hc
    exact hxc ▸ plainChar_toLower x (hw x hx)) _

/-! ## Search-filter lemmas -/

/-- The empty search pattern `%%` accepts every row (every row has the two
non-null id columns). -/
theorem matchesSearch_empty (r : JoinedRow) : matchesSearch "" r = true := by
  have h1 : ilike (sqlPattern "") (lpad 3 '0' (toString r.vehicle_id).toList) = true := by
    unfold ilike
    have hp : (sqlPattern "").map Char.toLower = ['%', '%'] := by decide
    rw [hp, likeMatch_pct_any]
    exact List.any_eq_true.mpr
      ⟨_, (List.mem_tails _ _).mpr (List.suffix_refl _), likeMatch_one_pct _⟩
  simp only [matchesSearch, Bool.or_eq_true]
  exact Or.inl (Or.inl (Or.inl (Or.inl (Or.inl (Or.inl (Or.inl h1))))))

/-- The `WHERE` clause is the OR of the single pattern over the present
searchable columns. -/
theorem matchesSearch_eq_any (s : String) (r : JoinedRow) :
    matchesSearch s r = (searchableColumns r).any (fun col => ilike (sqlPattern s) col) := by
  cases r with
  | mk id name status dd esd bid notes mcn mf ml ym fn =>
    cases name <;> cases dd <;> cases esd <;> cases notes <;> cases mcn <;>
      simp [matchesSearch, searchableColumns, optCol, oilike, Bool.or_assoc]

/-! ## Endpoint shape lemmas -/

/-- The success path of the ungrouped listing. -/
theorem getTrainCars_ungrouped (db : Db) (p : Params) (l o : Int)
    (hg : p.groupByMarriage ≠ some "true")
    (hl : effLimit p = some l) (ho : effOffset p = some o) :
    getTrainCars db none p = ⟨200, RespBody.ok {
      data := ((sortRows (rowsFor db (orDefault p.search ""))).drop o.toNat).take l.toNat,
      total := totalFor db (orDefault p.search ""),
      limit := some l, offset := some o,
      lastUpdated := lastUpdatedOf db, marriages := none }⟩ := by
  unfold getTrainCars
  rw [if_neg hg, hl, ho]

/-- The grouped branch. -/
theorem getTrainCars_grouped (db : Db) (p : Params)
    (hg : p.groupByMarriage = some "true") :
    getTrainCars db none p = ⟨200, RespBody.ok {
      data := sortRows (leftJoin db.cars db.models),
      total := db.cars.length,
      limit := effLimit p, offset := effOffset p,
      lastUpdated := lastUpdatedOf db,
      marriages := some (sortMarriages db.marriages) }⟩ := by
  unfold getTrainCars
  rw [if_pos hg]

/-- A `NaN` pagination parameter on the ungrouped path yields the 500 error
response. -/
theorem getTrainCars_nan (db : Db) (p : Params)
    (hg : p.groupByMarriage ≠ some "true")
    (h : effLimit p = none ∨ effOffset p = none) :
    getTrainCars db none p = ⟨500, RespBody.err genericErrorMessage⟩ := by
  unfold getTrainCars
  rw [if_neg hg]
  rcases h with h | h
  · rw [h]
  · rw [h]
    cases effLimit p <;> rfl

/-- A 200 ungrouped response forces both pagination parameters to have
parsed. -/
theorem status200_eff (db : Db) (p : Params)
    (hg : p.groupByMarriage ≠ some "true")
    (h : (getTrainCars db none p).status = 200) :
    ∃ l o, effLimit p = some l ∧ effOffset p = some o := by
  cases hl : effLimit p with
  | none =>
    rw [getTrainCars_nan db p hg (Or.inl hl)] at h
    exact absurd h (by decide)
  | some l =>
    cases ho : effOffset p with
    | none =>
      rw [getTrainCars_nan db p hg (Or.inr ho)] at h
      exact absurd h (by decide)
    | some o => exact ⟨l, o, rfl, rfl⟩

/-- The clamp keeps any parsed limit within `[1, 100]`. -/
theorem effLimit_bounds (p : Params) (l : Int) (h : effLimit p = some l) :
    1 ≤ l ∧ l ≤ 100 := by
  unfold effLimit at h
  cases hj : jsParseInt (orDefault p.limit "50") with
  | none => rw [hj] at h; simp at h
  | some n =>
    rw [hj] at h
    simp only [Option.map_some'] at h
    obtain rfl : min (max n 1) 100 = l := by injection h
    exact ⟨le_min (le_max_right n 1) (by norm_num), min_le_right _ _⟩

/-! ## Further generic helpers -/

/-- Splitting a `take` of a sum into two adjacent windows. -/
theorem take_add_split {α : Type} (l : List α) (m n : Nat) :
    l.take (m + n) = l.take m ++ (l.drop m).take n := by
  conv_lhs => rw [← List.take_append_drop m (l.take (m + n))]
  rw [List.take_take, Nat.min_eq_left (Nat.le_add_right m n), ← List.take_drop]

/-- `leftJoinRow` preserves the vehicle id. -/
theorem leftJoinRow_vehicle_id (models : List TrainModel) (c : Car) :
    (leftJoinRow models c).vehicle_id = c.vehicle_id := by
  unfold leftJoinRow
  cases c.batch_id.bind (fun b => models.find? (fun m => m.batch_id == b)) <;> rfl

/-- The join preserves the id column. -/
theorem leftJoin_map_vehicle_id (cars : List Car) (models : List TrainModel) :
    (leftJoin cars models).map JoinedRow.vehicle_id = cars.map Car.vehicle_id := by
  unfold leftJoin
  rw [List.map_map]
  exact List.map_congr_left (fun c _ => leftJoinRow_vehicle_id models c)

/-- The count query agrees with the filtered joined row count for every
search value (trivially for a non-empty search; for the empty search the
plain `COUNT(*)` equals the unfiltered join size because `%%` accepts every
row). -/
theorem totalFor_eq_filter_length (db : Db) (s : String) :
    totalFor db s = ((leftJoin db.cars db.models).filter (matchesSearch s)).length := by
  unfold totalFor
  by_cases hs0 : s = ""
  · rw [if_pos hs0, hs0]
    have hfull : (leftJoin db.cars db.models).filter (matchesSearch "") =
        leftJoin db.cars db.models :=
      List.filter_eq_self.mpr (fun r _ => matchesSearch_empty r)
    rw [hfull]
    unfold leftJoin
    rw [List.length_map]
  · rw [if_neg hs0]

/-! ## Inputs for the client-side grouped-rendering claims -/

/-- A vehicle with the (valid but JS-falsy) id 0. -/
def zeroCarRow : JoinedRow :=
  { vehicle_id := 0, name := some "Alpha", status := "In Service",
    delivery_date := none, enter_service_date := none,
    batch_id := none, notes := none,
    model_common_name := none, manufacturer := none,
    manufacture_location := none, years_manufactured := none, full_name := none }

/-- A marriage whose only member is vehicle 0. -/
def zeroCarMarriage : Marriage :=
  { marriage_id := 1, batch_id := none, cars := [0], marriage_size := 1 }

/-! ## Claims -/

/-- C1: pagination handling.  Absent parameters default (`limit` 50,
`offset` 0) and any value with a leading integer is clamped into range
(`250 ↦ 100`, `-3 ↦ 1`, empty string ↦ default, `-4 ↦ 0` for offset) — but a
value with no leading integer, such as `abc`, parses to `NaN`, which
propagates through `Math.max`/`Math.min` unclamped and makes the ungrouped
request fail with the generic 500 response instead of being silently
clamped, contradicting the claim (and the code's own "validate and
constrain" comment). -/
theorem c1_nan_escapes_clamp :
    effLimit ⟨none, none, none, none⟩ = some 50 ∧
    effOffset ⟨none, none, none, none⟩ = some 0 ∧
    effLimit ⟨none, none, some "250", none⟩ = some 100 ∧
    effLimit ⟨none, none, some "-3", none⟩ = some 1 ∧
    effLimit ⟨none, none, some "", none⟩ = some 50 ∧
    effOffset ⟨none, none, none, some "17"⟩ = some 17 ∧
    effOffset ⟨none, none, none, some "-4"⟩ = some 0 ∧
    effLimit ⟨none, none, some "abc", none⟩ = none ∧
    effOffset ⟨none, none, none, some "abc"⟩ = none ∧
    (getTrainCars exampleDb none ⟨none, none, some "abc", none⟩).status = 500 := by
  decide

/-- C2: in ungrouped mode, for a fixed database and search value, `total` is
the same for every limit/offset choice and equals the count of all rows of
the whole joined table matching the search filter, not the page size. -/
theorem c2_total_invariant (db : Db) (p₁ p₂ : Params)
    (hg₁ : p₁.groupByMarriage ≠ some "true") (hg₂ : p₂.groupByMarriage ≠ some "true")
    (hs : p₁.search = p₂.search)
    (h₁ : (getTrainCars db none p₁).status = 200)
    (h₂ : (getTrainCars db none p₂).status = 200) :
    respTotal (getTrainCars db none p₁) = respTotal (getTrainCars db none p₂) ∧
    respTotal (getTrainCars db none p₁) =
      some (((leftJoin db.cars db.models).filter
        (matchesSearch (orDefault p₁.search ""))).length) := by
  obtain ⟨l₁, o₁, hl₁, ho₁⟩ := status200_eff db p₁ hg₁ h₁
  obtain ⟨l₂, o₂, hl₂, ho₂⟩ := status200_eff db p₂ hg₂ h₂
  rw [getTrainCars_ungrouped db p₁ l₁ o₁ hg₁ hl₁ ho₁,
    getTrainCars_ungrouped db p₂ l₂ o₂ hg₂ hl₂ ho₂]
  constructor
  · simp only [respTotal]
    rw [hs]
  · simp only [respTotal]
    rw [totalFor_eq_filter_length]

/-- C2 witness: two concrete requests differing in limit and offset. -/
theorem c2_total_invariant_witness :
    respTotal (getTrainCars exampleDb none ⟨some "Alpha", none, some "10", some "0"⟩) =
      respTotal (getTrainCars exampleDb none ⟨some "Alpha", none, some "99", some "5"⟩) ∧
    respTotal (getTrainCars exampleDb none ⟨some "Alpha", none, some "10", some "0"⟩) =
      some (((leftJoin exampleDb.cars exampleDb.models).filter
        (matchesSearch (orDefault (some "Alpha") ""))).length) :=
  c2_total_invariant exampleDb ⟨some "Alpha", none, some "10", some "0"⟩
    ⟨some "Alpha", none, some "99", some "5"⟩
    (by decide) (by decide) rfl (by decide) (by decide)

/-- C3 (amended): in ungrouped mode, for every non-empty search term that
contains none of the SQL LIKE metacharacters `%`, `_` and the escape `\`,
every row of the returned page contains the term case-insensitively as a
substring of at least one documented searchable column (padded id, raw id,
name, status, delivery date, service date, notes, model common name), the
filter being a single pattern OR-combined over those columns.  For terms
containing a metacharacter the filter is LIKE-pattern matching, not literal
substring containment (see the counterexample). -/
theorem c3_search_rows_match (db : Db) (p : Params) (d : List JoinedRow) (r : JoinedRow)
    (hg : p.groupByMarriage ≠ some "true")
    (hs : orDefault p.search "" ≠ "")
    (hw : ∀ c ∈ (orDefault p.search "").toList, plainChar c)
    (hd : respData (getTrainCars db none p) = some d) (hr : r ∈ d) :
    ∃ col ∈ searchableColumns r,
      ((orDefault p.search "").toList.map Char.toLower) <:+: (col.map Char.toLower) := by
  cases hl : effLimit p with
  | none =>
    rw [getTrainCars_nan db p hg (Or.inl hl)] at hd
    exact absurd hd (by simp [respData])
  | some l =>
    cases ho : effOffset p with
    | none =>
      rw [getTrainCars_nan db p hg (Or.inr ho)] at hd
      exact absurd hd (by simp [respData])
    | some o =>
      rw [getTrainCars_ungrouped db p l o hg hl ho] at hd
      simp only [respData, Option.some.injEq] at hd
      subst hd
      have hr1 : r ∈ sortRows (rowsFor db (orDefault p.search "")) :=
        List.mem_of_mem_drop (List.mem_of_mem_take hr)
      have hr2 : r ∈ rowsFor db (orDefault p.search "") :=
        (List.perm_insertionSort rowLe _).mem_iff.mp hr1
      have hr3 : matchesSearch (orDefault p.search "") r = true := by
        unfold rowsFor at hr2
        rw [if_neg hs] at hr2
        exact List.of_mem_filter hr2
      rw [matchesSearch_eq_any] at hr3
      obtain ⟨col, hcol, hcolm⟩ := List.any_eq_true.mp hr3
      exact ⟨col, hcol, (ilike_sqlPattern_plain _ col hw).mp hcolm⟩

/-- C3 witness: the search `LPH` (no metacharacters, mixed case) returns the
row named `Alpha`, which contains it case-insensitively. -/
theorem c3_search_rows_match_witness :
    ∃ col ∈ searchableColumns exampleRow1,
      ((orDefault (some "LPH") "").toList.map Char.toLower) <:+: (col.map Char.toLower) :=
  c3_search_rows_match exampleDb ⟨some "LPH", none, none, none⟩ [exampleRow1] exampleRow1
    (by decide) (by decide) (by decide) (by decide) (by decide)

/-- C3 counterexample: the non-empty search term `_` is a LIKE wildcard: the
pattern `%_%` matches the padded id `001` of the first row, so the row is
returned, yet no documented searchable column of that row contains `_` as a
(case-insensitive) substring — the claim's universal "matches as substring"
reading fails for metacharacter searches. -/
theorem c3_wildcard_counterexample :
    respData (getTrainCars exampleDb none ⟨some "_", none, none, none⟩) =
      some [exampleRow1, exampleRow2] ∧
    ¬ ∃ col ∈ searchableColumns exampleRow1,
        (("_".toList).map Char.toLower) <:+: (col.map Char.toLower) := by
  decide

/-- C4: every ungrouped 200 response carries at most `limit` rows, sorted
ascending by vehicle id, where `limit` is the effective (clamped) limit
echoed in the response. -/
theorem c4_page_bounded_sorted (db : Db) (p : Params)
    (hg : p.groupByMarriage ≠ some "true")
    (h200 : (getTrainCars db none p).status = 200) :
    ∃ d l, respData (getTrainCars db none p) = some d ∧
      respLimit (getTrainCars db none p) = some l ∧
      (d.length : Int) ≤ l ∧ List.Sorted rowLe d := by
  obtain ⟨l, o, hl, ho⟩ := status200_eff db p hg h200
  rw [getTrainCars_ungrouped db p l o hg hl ho]
  refine ⟨_, l, rfl, rfl, ?_, ?_⟩
  · have h1 : (((sortRows (rowsFor db (orDefault p.search ""))).drop o.toNat).take l.toNat).length
        ≤ l.toNat := by
      rw [List.length_take]
      exact min_le_left _ _
    have h2 : (l.toNat : Int) = l :=
      Int.toNat_of_nonneg (le_trans (by norm_num) (effLimit_bounds p l hl).1)
    calc ((((sortRows (rowsFor db (orDefault p.search ""))).drop o.toNat).take l.toNat).length : Int)
        ≤ (l.toNat : Int) := by exact_mod_cast h1
      _ = l := h2
  · exact List.Pairwise.sublist
      ((List.take_sublist _ _).trans (List.drop_sublist _ _))
      (List.sorted_insertionSort rowLe _)

/-- C4 witness: the default request against the example database. -/
theorem c4_page_bounded_sorted_witness :
    ∃ d l, respData (getTrainCars exampleDb none ⟨none, none, none, none⟩) = some d ∧
      respLimit (getTrainCars exampleDb none ⟨none, none, none, none⟩) = some l ∧
      (d.length : Int) ≤ l ∧ List.Sorted rowLe d :=
  c4_page_bounded_sorted exampleDb ⟨none, none, none, none⟩ (by decide) (by decide)

/-- C5: with a fixed search and database whose vehicle ids are unique (the
schema key invariant), the pages `offset=0,limit=50` and `offset=50,limit=50`
are disjoint adjacent slices whose concatenation is exactly the first 100
matching rows in ascending vehicle-id order. -/
theorem c5_pagination_roundtrip (db : Db) (s gm : Option String)
    (hgm : gm ≠ some "true") (hnd : (db.cars.map Car.vehicle_id).Nodup) :
    ∃ d₁ d₂,
      respData (getTrainCars db none ⟨s, gm, some "50", some "0"⟩) = some d₁ ∧
      respData (getTrainCars db none ⟨s, gm, some "50", some "50"⟩) = some d₂ ∧
      d₁ ++ d₂ = (sortRows (rowsFor db (orDefault s ""))).take 100 ∧
      ∀ r ∈ d₁, r ∉ d₂ := by
  have hl₁ : effLimit ⟨s, gm, some "50", some "0"⟩ = some 50 := rfl
  have ho₁ : effOffset ⟨s, gm, some "50", some "0"⟩ = some 0 := rfl
  have hl₂ : effLimit ⟨s, gm, some "50", some "50"⟩ = some 50 := rfl
  have ho₂ : effOffset ⟨s, gm, some "50", some "50"⟩ = some 50 := rfl
  refine ⟨(sortRows (rowsFor db (orDefault s ""))).take 50,
    ((sortRows (rowsFor db (orDefault s ""))).drop 50).take 50, ?_, ?_, ?_, ?_⟩
  · rw [getTrainCars_ungrouped db _ 50 0 hgm hl₁ ho₁]
    rfl
  · rw [getTrainCars_ungrouped db _ 50 50 hgm hl₂ ho₂]
    rfl
  · rw [show (100 : Nat) = 50 + 50 from rfl, take_add_split]
  · -- the slices are disjoint because the sorted filtered list has no
    -- duplicate rows (vehicle ids are unique)
    have hnd₁ : ((leftJoin db.cars db.models).map JoinedRow.vehicle_id).Nodup := by
      rw [leftJoin_map_vehicle_id]
      exact hnd
    have hnd₂ : ((rowsFor db (orDefault s "")).map JoinedRow.vehicle_id).Nodup := by
      unfold rowsFor
      by_cases h0 : orDefault s "" = ""
      · rw [if_pos h0]
        exact hnd₁
      · rw [if_neg h0]
        exact List.Nodup.sublist (List.Sublist.map _ (List.filter_sublist _)) hnd₁
    have hnd₃ : ((sortRows (rowsFor db (orDefault s ""))).map JoinedRow.vehicle_id).Nodup :=
      ((List.perm_insertionSort rowLe _).map JoinedRow.vehicle_id).nodup_iff.mpr hnd₂
    have hndL : (sortRows (rowsFor db (orDefault s ""))).Nodup :=
      List.Nodup.of_map _ hnd₃
    have hsplit : ((sortRows (rowsFor db (orDefault s ""))).take 50 ++
        (sortRows (rowsFor db (orDefault s ""))).drop 50).Nodup := by
      rw [List.take_append_drop]
      exact hndL
    have hdisj := (List.nodup_append.mp hsplit).2.2
    intro r hr₁ hr₂
    exact hdisj hr₁ (List.mem_of_mem_take hr₂)

/-- C5 witness: the example database (unique ids) with the search `a`. -/
theorem c5_pagination_roundtrip_witness :
    ∃ d₁ d₂,
      respData (getTrainCars exampleDb none ⟨some "a", none, some "50", some "0"⟩) = some d₁ ∧
      respData (getTrainCars exampleDb none ⟨some "a", none, some "50", some "50"⟩) = some d₂ ∧
      d₁ ++ d₂ = (sortRows (rowsFor exampleDb (orDefault (some "a") ""))).take 100 ∧
      ∀ r ∈ d₁, r ∉ d₂ :=
  c5_pagination_roundtrip exampleDb (some "a") none (by decide) (by decide)

/-- C6: grouped mode is search-independent — two requests differing only in
`search` produce identical responses; the data array is always the full
sorted vehicle join (unfiltered, unpaginated) and the marriages array the
full group list ordered by group id. -/
theorem c6_grouped_search_independence (db : Db) (s₁ s₂ lim off : Option String) :
    getTrainCars db none ⟨s₁, some "true", lim, off⟩ =
      getTrainCars db none ⟨s₂, some "true", lim, off⟩ ∧
    respData (getTrainCars db none ⟨s₁, some "true", lim, off⟩) =
      some (sortRows (leftJoin db.cars db.models)) ∧
    marriagesOf (getTrainCars db none ⟨s₁, some "true", lim, off⟩) =
      some (sortMarriages db.marriages) :=
  ⟨rfl, rfl, rfl⟩

/-- C7: grouped-mode client rendering at the failing input.  The marriage
whose only member is vehicle 0 is retained by the search filter (its member's
name matches `Alpha`), and the member's row is present in the vehicle index,
yet the render loop emits no member rows for it: `find` returns the member
id 0, which is falsy, so `if (!firstMatchingCar) return` skips the whole
group — contradicting both the claim and the code's own "shouldn't happen"
comment.  A group whose first resolvable member id is nonzero renders every
member row, as the last conjunct shows. -/
theorem c7_zero_id_group_skipped :
    availableMarriages [zeroCarRow] [zeroCarMarriage] "Alpha" = [zeroCarMarriage] ∧
    findCar [zeroCarRow] 0 = some zeroCarRow ∧
    renderGroup [zeroCarRow] zeroCarMarriage = some [] ∧
    availableMarriages [exampleRow1, exampleRow2] [exampleMarriage] "Alpha" = [exampleMarriage] ∧
    renderGroup [exampleRow1, exampleRow2] exampleMarriage = some [exampleRow1, exampleRow2] := by
  decide

/-- C8: whenever the backing store throws, the endpoint answers 500 with the
fixed generic body; the response is the same whatever the error detail was
(so no SQL text, column name or stack detail can appear in it), while the
full detail goes to the server-side log. -/
theorem c8_error_redaction (db : Db) (p : Params) (e e' : String) :
    getTrainCars db (some e) p = ⟨500, RespBody.err genericErrorMessage⟩ ∧
    getTrainCars db (some e) p = getTrainCars db (some e') p ∧
    serverLogOf (some e) = some ("Database error: " ++ e) :=
  ⟨rfl, rfl, rfl⟩

/-- C9: the client renders ids in the band `[6000, 6999]` `padStart`-ed to 4
digits with the Mark V tooltip, and every id outside the band `padStart`-ed
to 3 digits with no tooltip. -/
theorem c9_markv_format (id : Nat) :
    (6000 ≤ id ∧ id ≤ 6999 →
      fmtVehicleId id = (padStart 4 '0' (toString id).toList, true)) ∧
    (¬ (6000 ≤ id ∧ id ≤ 6999) →
      fmtVehicleId id = (padStart 3 '0' (toString id).toList, false)) := by
  constructor
  · rintro ⟨h1, h2⟩
    have hd : decide (6000 ≤ id ∧ id < 7000) = true :=
      decide_eq_true ⟨h1, by omega⟩
    simp [fmtVehicleId, hd]
  · intro h
    have hd : decide (6000 ≤ id ∧ id < 7000) = false :=
      decide_eq_false (fun hc => h ⟨hc.1, by omega⟩)
    simp [fmtVehicleId, hd]

/-- C9 witness: a Mark V id and a regular id. -/
theorem c9_markv_format_witness :
    fmtVehicleId 6042 = (padStart 4 '0' (toString 6042).toList, true) ∧
    fmtVehicleId 123 = (padStart 3 '0' (toString 123).toList, false) :=
  ⟨(c9_markv_format 6042).1 (by decide), (c9_markv_format 123).2 (by decide)⟩

/-- C10: in every 200 response, `marriages` is a (possibly empty) array
exactly when `groupByMarriage` is the exact string `true`, and `null` for
every other request; no other parameter influences this. -/
theorem c10_marriages_iff_grouped (db : Db) (p : Params)
    (h200 : (getTrainCars db none p).status = 200) :
    (∃ ms, marriagesOf (getTrainCars db none p) = some ms) ↔
      p.groupByMarriage = some "true" := by
  by_cases hg : p.groupByMarriage = some "true"
  · rw [getTrainCars_grouped db p hg]
    exact iff_of_true ⟨sortMarriages db.marriages, rfl⟩ hg
  · obtain ⟨l, o, hl, ho⟩ := status200_eff db p hg h200
    rw [getTrainCars_ungrouped db p l o hg hl ho]
    constructor
    · rintro ⟨ms, hms⟩
      exact absurd hms (by simp [marriagesOf])
    · intro h
      exact absurd h hg

/-- C10 witness: a concrete grouped request with a non-null (and non-empty)
marriages array. -/
theorem c10_marriages_iff_grouped_witness :
    ∃ ms, marriagesOf (getTrainCars exampleDb none ⟨none, some "true", none, none⟩) = some ms :=
  (c10_marriages_iff_grouped exampleDb ⟨none, some "true", none, none⟩ (by decide)).mpr rfl
